import Mathlib

/-!
Shallow embedding of the cotty terminal-emulation engine.

The repository exposes the engine through the C interface
`src/macos/Sources/CCottyCore/include/cotty.h`; the implementation behind
those declarations is not part of the source tree, so every operational
definition below is modelled from the specification (spec.md) and carries a
doc comment saying what it models.  Machine integers of the interface
(`int64_t`) are modelled as `Int`/`Nat`; byte streams as `List Nat` with
each element < 256.
-/

namespace Cotty

/-- Modelled from the spec: tagged color variant of a Cell
(none / palette-index / RGB); the C boundary encodes the tag as
0 = none, 1 = palette, 2 = rgb (cotty.h line 100). -/
inductive Color where
  | none
  | palette (n : Nat)
  | rgb (v : Nat)
deriving DecidableEq

/-- Modelled from the spec: a fixed-width cell record: codepoint,
foreground / background / underline colors, attribute flags. -/
structure Cell where
  cp : Nat
  fg : Color
  bg : Color
  ul : Color
  flags : Nat
deriving DecidableEq

/-- Modelled from the spec: OSC 133 semantic row tag
(none / prompt-start / command / output). -/
inductive SemTag where
  | untagged
  | promptStart
  | command
  | output
deriving DecidableEq

/-- Modelled from the spec: a Row is an ordered sequence of Cells with a
wrapped flag and an optional semantic tag. -/
structure Row where
  cells : List Cell
  wrapped : Bool
  tag : SemTag
deriving DecidableEq

/-- Blank cell used for padding and erasure. -/
def blankCell : Cell :=
  { cp := 32, fg := Color.none, bg := Color.none, ul := Color.none, flags := 0 }

/-- Blank row of a given width. -/
def blankRow (cols : Nat) : Row :=
  { cells := List.replicate cols blankCell, wrapped := false, tag := SemTag.untagged }

/-- Modelled from the spec: the active grid, a rows x cols array of Rows. -/
structure Grid where
  nrows : Nat
  ncols : Nat
  data : List Row
deriving DecidableEq

/-- Modelled from the spec: Scrollback, an append-only bounded ring of
evicted Rows; capacity fixed at construction; oldest row dropped (FIFO)
when a new row is pushed at capacity.  `rows` is kept oldest-first. -/
structure Scrollback where
  capacity : Nat
  rows : List Row
deriving DecidableEq

/-- Empty scrollback of a fixed capacity. -/
def Scrollback.empty (cap : Nat) : Scrollback :=
  { capacity := cap, rows := [] }

/-- Modelled from the spec: pushing a row appends it; when that overflows
the capacity, the oldest rows are dropped from the front (FIFO). -/
def Scrollback.push (sb : Scrollback) (r : Row) : Scrollback :=
  let rs := sb.rows ++ [r]
  { sb with rows := rs.drop (rs.length - sb.capacity) }

/-- Pushing a whole list of rows in order. -/
def Scrollback.pushAll (sb : Scrollback) (l : List Row) : Scrollback :=
  l.foldl Scrollback.push sb

theorem Scrollback.push_capacity (sb : Scrollback) (r : Row) :
    (sb.push r).rows.length ≤ sb.capacity := by
  simp [Scrollback.push]
  omega

theorem Scrollback.push_at_capacity (sb : Scrollback) (r : Row)
    (hcap : 0 < sb.capacity) (hful : sb.rows.length = sb.capacity) :
    (sb.push r).rows = sb.rows.tail ++ [r] := by
  obtain ⟨a, as, hcons⟩ : ∃ a as, sb.rows = a :: as := by
    cases h : sb.rows with
    | nil =>
      rw [h] at hful
      simp at hful
      omega
    | cons a as => exact ⟨a, as, rfl⟩
  simp only [Scrollback.push, List.length_append, List.length_singleton, hful]
  have h1 : sb.capacity + 1 - sb.capacity = 1 := by omega
  rw [h1, hcons]
  simp

theorem Scrollback.push_capacity_unchanged (sb : Scrollback) (r : Row) :
    (sb.push r).capacity = sb.capacity := rfl

theorem Scrollback.pushAll_rows (cap : Nat) :
    ∀ (l : List Row) (sb : Scrollback), sb.capacity = cap → sb.rows.length ≤ cap →
      (sb.pushAll l).rows = (sb.rows ++ l).drop (sb.rows.length + l.length - cap) := by
  intro l
  induction l with
  | nil =>
    intro sb hc hl
    have h0 : sb.rows.length + ([] : List Row).length - cap = 0 := by
      simp only [List.length_nil]
      omega
    simp only [Scrollback.pushAll, List.foldl_nil, h0, List.append_nil, List.drop_zero]
  | cons r rest ih =>
    intro sb hc hl
    have hstep : sb.pushAll (r :: rest) = (sb.push r).pushAll rest := rfl
    have hrows : (sb.push r).rows = (sb.rows ++ [r]).drop (sb.rows.length + 1 - cap) := by
      simp [Scrollback.push, hc]
    have hlen2 : (sb.push r).rows.length ≤ cap := by
      have h := Scrollback.push_capacity sb r
      rw [hc] at h
      exact h
    rw [hstep, ih (sb.push r) (by simp [Scrollback.push, hc]) hlen2, hrows]
    have hklen : sb.rows.length + 1 - cap ≤ (sb.rows ++ [r]).length := by
      simp only [List.length_append, List.length_singleton]
      omega
    simp only [List.length_drop, List.length_append, List.length_singleton]
    rw [← List.drop_append_of_le_length hklen, List.drop_drop, List.append_assoc,
      List.singleton_append]
    congr 1
    simp only [List.length_cons]
    omega

/-- Modelled from the spec: cursor state — row, column (clipped to grid
bounds at all times), visible flag, shape, blink flag. -/
structure CursorSt where
  row : Nat
  col : Nat
  visible : Bool
  shape : Nat
  blink : Bool
deriving DecidableEq

/-- Modelled from the spec: mouse-tracking mode
(off / normal / button-event / any-event). -/
inductive MouseMode where
  | off
  | normal
  | buttonEvent
  | anyEvent
deriving DecidableEq

/-- Modelled from the spec: mouse report format (default / UTF8 / SGR / urxvt). -/
inductive MouseFormat where
  | default
  | utf8
  | sgr
  | urxvt
deriving DecidableEq

/-- Modelled from the spec: emulator mode state — alt-screen, mouse
tracking mode and format, bracketed-paste, focus-event, kitty-keyboard,
app-keypad, reverse-video flags, title string and bell-pending flag. -/
structure ModeSt where
  altScreen : Bool
  mouseMode : MouseMode
  mouseFormat : MouseFormat
  bracketedPaste : Bool
  focusEvents : Bool
  kittyKeyboard : Bool
  appKeypad : Bool
  reverseVideo : Bool
  bellPending : Bool
deriving DecidableEq

/-- Modelled from the spec: the current SGR pen (attributes applied to
newly written cells). -/
structure Pen where
  fg : Color
  bg : Color
  ul : Color
  flags : Nat
deriving DecidableEq

/-- Default pen: default colors, no attributes. -/
def defaultPen : Pen :=
  { fg := Color.none, bg := Color.none, ul := Color.none, flags := 0 }

/-- Modelled from the spec: the observable terminal state guarded by the
lock — Grid, Cursor, Mode, Scrollback, viewport offset, title, working
directory (OSC 7) and the palette-set overrides (newest first).  The
escape-sequence parser's in-flight state and the dirty signal live outside
this record. -/
structure Obs where
  grid : Grid
  cursor : CursorSt
  mode : ModeSt
  pen : Pen
  scrollback : Scrollback
  viewport : Nat
  title : List Nat
  pwd : List Nat
  paletteOv : List (Nat × List Nat)
deriving DecidableEq

/-- Modelled from the spec: states of the escape-sequence parser — ground,
escape, CSI param accumulation, OSC string accumulation, DCS string
consumption (pass-through, ignored), their string-terminator handling
states and incremental UTF-8 decoding. -/
inductive ParserSt where
  | ground
  | esc
  | csi (params : List Nat) (cur : Nat)
  | osc (data : List Nat)
  | oscEsc (data : List Nat)
  | dcs
  | dcsEsc
  | utf8 (acc : Nat) (need : Nat)
deriving DecidableEq

/-- Modelled from the spec: a whole terminal instance — observable state,
dirty signal and parser state. -/
structure Term where
  obs : Obs
  dirty : Bool
  parser : ParserSt
deriving DecidableEq

/-- Step result that changes only the parser state: no observable change,
dirty untouched. -/
def pure1 (st : Term) (p : ParserSt) : Term :=
  { st with parser := p }

/-- Step result with an observable effect: sets the dirty signal. -/
def eff (st : Term) (o : Obs) (p : ParserSt) : Term :=
  { st with obs := o, dirty := true, parser := p }

/-- Write a cell into the grid at (r, c). -/
def setCell (g : Grid) (r c : Nat) (cell : Cell) : Grid :=
  let row := g.data.getD r (blankRow g.ncols)
  { g with data := g.data.set r { row with cells := row.cells.set c cell } }

/-- Set the semantic tag of grid row r. -/
def setTag (g : Grid) (r : Nat) (t : SemTag) : Grid :=
  let row := g.data.getD r (blankRow g.ncols)
  { g with data := g.data.set r { row with tag := t } }

/-- Modelled from the spec: write a printable codepoint at the cursor with
the current pen and advance the cursor column, clamped to the last column. -/
def putChar (o : Obs) (cp : Nat) : Obs :=
  let cell : Cell := { cp := cp, fg := o.pen.fg, bg := o.pen.bg, ul := o.pen.ul,
                       flags := o.pen.flags }
  { o with grid := setCell o.grid o.cursor.row o.cursor.col cell,
           cursor := { o.cursor with
             col := min (o.cursor.col + 1) (o.grid.ncols - 1) } }

/-- Modelled from the spec: line feed — move the cursor down; at the
bottom row, scroll: the top active row is pushed into Scrollback and a
blank row enters at the bottom. -/
def lineFeed (o : Obs) : Obs :=
  if o.cursor.row + 1 < o.grid.nrows then
    { o with cursor := { o.cursor with row := o.cursor.row + 1 } }
  else
    { o with
      grid := { o.grid with data := o.grid.data.tail ++ [blankRow o.grid.ncols] },
      scrollback := o.scrollback.push (o.grid.data.headD (blankRow o.grid.ncols)) }

/-- Carriage return: column to 0. -/
def carriageReturn (o : Obs) : Obs :=
  { o with cursor := { o.cursor with col := 0 } }

/-- Backspace: column back by one (saturating at 0). -/
def backspace (o : Obs) : Obs :=
  { o with cursor := { o.cursor with col := o.cursor.col - 1 } }

/-- Bell: set the edge-triggered bell-pending flag. -/
def bellObs (o : Obs) : Obs :=
  { o with mode := { o.mode with bellPending := true } }

/-- Horizontal tab: advance to the next multiple of 8, clamped. -/
def tabStop (o : Obs) : Obs :=
  { o with cursor := { o.cursor with
      col := min ((o.cursor.col / 8 + 1) * 8) (o.grid.ncols - 1) } }

/-- Modelled from the spec: apply a list of SGR parameters to the pen
(reset, bold, 16-color and 256-color palette, direct RGB). -/
def sgrRun (pen : Pen) : List Nat → Pen
  | [] => pen
  | 0 :: rest => sgrRun defaultPen rest
  | 1 :: rest => sgrRun { pen with flags := pen.flags ||| 1 } rest
  | 3 :: rest => sgrRun { pen with flags := pen.flags ||| 2 } rest
  | 4 :: rest => sgrRun { pen with flags := pen.flags ||| 4 } rest
  | 7 :: rest => sgrRun { pen with flags := pen.flags ||| 8 } rest
  | 9 :: rest => sgrRun { pen with flags := pen.flags ||| 16 } rest
  | 38 :: 5 :: n :: rest => sgrRun { pen with fg := Color.palette n } rest
  | 48 :: 5 :: n :: rest => sgrRun { pen with bg := Color.palette n } rest
  | 58 :: 5 :: n :: rest => sgrRun { pen with ul := Color.palette n } rest
  | 38 :: 2 :: r :: g :: b :: rest =>
      sgrRun { pen with fg := Color.rgb (r * 65536 + g * 256 + b) } rest
  | 48 :: 2 :: r :: g :: b :: rest =>
      sgrRun { pen with bg := Color.rgb (r * 65536 + g * 256 + b) } rest
  | 58 :: 2 :: r :: g :: b :: rest =>
      sgrRun { pen with ul := Color.rgb (r * 65536 + g * 256 + b) } rest
  | 39 :: rest => sgrRun { pen with fg := Color.none } rest
  | 49 :: rest => sgrRun { pen with bg := Color.none } rest
  | 59 :: rest => sgrRun { pen with ul := Color.none } rest
  | p :: rest =>
      if 30 ≤ p ∧ p ≤ 37 then sgrRun { pen with fg := Color.palette (p - 30) } rest
      else if 40 ≤ p ∧ p ≤ 47 then sgrRun { pen with bg := Color.palette (p - 40) } rest
      else if 90 ≤ p ∧ p ≤ 97 then sgrRun { pen with fg := Color.palette (p - 82) } rest
      else if 100 ≤ p ∧ p ≤ 107 then sgrRun { pen with bg := Color.palette (p - 92) } rest
      else sgrRun pen rest

/-- First parameter of a CSI sequence, defaulting to d. -/
def param0 (ps : List Nat) (d : Nat) : Nat :=
  match ps with
  | [] => d
  | 0 :: _ => d
  | p :: _ => p

/-- Second parameter of a CSI sequence, defaulting to d. -/
def param1 (ps : List Nat) (d : Nat) : Nat :=
  match ps with
  | _ :: 0 :: _ => d
  | _ :: p :: _ => p
  | _ => d

/-- Clip a cursor position into the grid bounds. -/
def clipCursor (g : Grid) (r c : Nat) : CursorSt → CursorSt :=
  fun cur => { cur with row := min r (g.nrows - 1), col := min c (g.ncols - 1) }

/-- Modelled from the spec: erase the whole display (CSI J simplified to
its full-clear effect). -/
def eraseDisplay (o : Obs) : Obs :=
  { o with grid := { o.grid with
      data := List.replicate o.grid.nrows (blankRow o.grid.ncols) } }

/-- Modelled from the spec: erase the cursor's line (CSI K simplified to
its full-line effect). -/
def eraseLine (o : Obs) : Obs :=
  { o with grid := { o.grid with
      data := o.grid.data.set o.cursor.row (blankRow o.grid.ncols) } }

/-- Outcome of one parser step: either a pure parser-state transition or
an effectful transition that changes the observable state (and therefore
raises the dirty signal when applied). -/
inductive Step where
  | pure (p : ParserSt)
  | effect (o : Obs) (p : ParserSt)

/-- Apply a step outcome to the terminal: a pure step only moves the
parser; an effectful step installs the new observable state and raises
the dirty signal. -/
def applyStep (st : Term) : Step → Term
  | Step.pure p => pure1 st p
  | Step.effect o p => eff st o p

/-- Modelled from the spec: DECSET/RM mode set (on)/reset (off) for one
mode code, affecting Mode state and cursor visibility — alt screen
(47/1047/1049), mouse tracking modes (1000/1002/1003), mouse report
formats (1005/1006/1015), focus events (1004), bracketed paste (2004),
cursor visibility (25); unknown codes are left unchanged. -/
def applyMode (o : Obs) (code : Nat) (en : Bool) : Obs :=
  if code = 25 then { o with cursor := { o.cursor with visible := en } }
  else if code = 47 ∨ code = 1047 ∨ code = 1049 then
    { o with mode := { o.mode with altScreen := en } }
  else if code = 1000 then
    { o with mode := { o.mode with
        mouseMode := if en then MouseMode.normal else MouseMode.off } }
  else if code = 1002 then
    { o with mode := { o.mode with
        mouseMode := if en then MouseMode.buttonEvent else MouseMode.off } }
  else if code = 1003 then
    { o with mode := { o.mode with
        mouseMode := if en then MouseMode.anyEvent else MouseMode.off } }
  else if code = 1004 then { o with mode := { o.mode with focusEvents := en } }
  else if code = 1005 then
    { o with mode := { o.mode with
        mouseFormat := if en then MouseFormat.utf8 else MouseFormat.default } }
  else if code = 1006 then
    { o with mode := { o.mode with
        mouseFormat := if en then MouseFormat.sgr else MouseFormat.default } }
  else if code = 1015 then
    { o with mode := { o.mode with
        mouseFormat := if en then MouseFormat.urxvt else MouseFormat.default } }
  else if code = 2004 then { o with mode := { o.mode with bracketedPaste := en } }
  else o

/-- Apply DECSET/RM to every parameter of the sequence. -/
def applyModes (o : Obs) (codes : List Nat) (en : Bool) : Obs :=
  codes.foldl (fun acc c => applyMode acc c en) o

/-- Modelled from the spec: ESC = / ESC > application-keypad mode. -/
def setAppKeypad (o : Obs) (en : Bool) : Obs :=
  { o with mode := { o.mode with appKeypad := en } }

/-- Modelled from the spec: dispatch of a completed CSI sequence on its
final byte: cursor movement and placement, erase, SGR, DECSET/RM mode
set h / reset l.  Unrecognized final bytes discard the sequence and
return to ground. -/
def csiStep (o : Obs) (ps : List Nat) (fin : Nat) : Step :=
  if fin = 0x48 ∨ fin = 0x66 then
    Step.effect { o with cursor := clipCursor o.grid (param0 ps 1 - 1) (param1 ps 1 - 1) o.cursor }
      ParserSt.ground
  else if fin = 0x41 then
    Step.effect { o with cursor := { o.cursor with row := o.cursor.row - param0 ps 1 } }
      ParserSt.ground
  else if fin = 0x42 then
    Step.effect { o with cursor := { o.cursor with
        row := min (o.cursor.row + param0 ps 1) (o.grid.nrows - 1) } } ParserSt.ground
  else if fin = 0x43 then
    Step.effect { o with cursor := { o.cursor with
        col := min (o.cursor.col + param0 ps 1) (o.grid.ncols - 1) } } ParserSt.ground
  else if fin = 0x44 then
    Step.effect { o with cursor := { o.cursor with col := o.cursor.col - param0 ps 1 } }
      ParserSt.ground
  else if fin = 0x4a then
    Step.effect (eraseDisplay o) ParserSt.ground
  else if fin = 0x4b then
    Step.effect (eraseLine o) ParserSt.ground
  else if fin = 0x6d then
    Step.effect { o with pen := sgrRun o.pen ps } ParserSt.ground
  else if fin = 0x68 then
    Step.effect (applyModes o ps true) ParserSt.ground
  else if fin = 0x6c then
    Step.effect (applyModes o ps false) ParserSt.ground
  else
    Step.pure ParserSt.ground

/-- Numeric prefix of an OSC payload up to the first semicolon, together
with the rest after that semicolon. -/
def oscSplit (data : List Nat) : Nat × List Nat :=
  let num := data.takeWhile (fun b => 0x30 ≤ b ∧ b ≤ 0x39)
  let rest := data.drop num.length
  (num.foldl (fun a b => a * 10 + (b - 0x30)) 0,
   match rest with
   | 0x3b :: r => r
   | r => r)

/-- Modelled from the spec: dispatch of a completed OSC string — OSC 0/2
set the title, OSC 7 the working directory, OSC 4 records a palette-set
override (index and raw color spec, newest first), OSC 133 tags the
cursor's row with a semantic prompt tag; other commands are ignored. -/
def oscStep (o : Obs) (data : List Nat) : Step :=
  let nr := oscSplit data
  if nr.1 = 0 ∨ nr.1 = 2 then
    Step.effect { o with title := nr.2 } ParserSt.ground
  else if nr.1 = 7 then
    Step.effect { o with pwd := nr.2 } ParserSt.ground
  else if nr.1 = 4 then
    let pr := oscSplit nr.2
    Step.effect { o with paletteOv := (pr.1, pr.2) :: o.paletteOv } ParserSt.ground
  else if nr.1 = 133 then
    if nr.2.headD 0 = 0x41 then
      Step.effect { o with grid := setTag o.grid o.cursor.row SemTag.promptStart }
        ParserSt.ground
    else if nr.2.headD 0 = 0x42 then
      Step.effect { o with grid := setTag o.grid o.cursor.row SemTag.command }
        ParserSt.ground
    else if nr.2.headD 0 = 0x43 then
      Step.effect { o with grid := setTag o.grid o.cursor.row SemTag.output }
        ParserSt.ground
    else
      Step.pure ParserSt.ground
  else
    Step.pure ParserSt.ground

/-- Modelled from the spec: ground-state handling of one byte — C0
controls execute, ESC enters the escape state, printable ASCII writes a
cell, UTF-8 lead bytes start incremental decoding, and stray continuation
or invalid bytes are silently discarded. -/
def groundStep (o : Obs) (b : Nat) : Step :=
  if b = 0x1b then Step.pure ParserSt.esc
  else if b = 0x0a then Step.effect (lineFeed o) ParserSt.ground
  else if b = 0x0d then Step.effect (carriageReturn o) ParserSt.ground
  else if b = 0x08 then Step.effect (backspace o) ParserSt.ground
  else if b = 0x07 then Step.effect (bellObs o) ParserSt.ground
  else if b = 0x09 then Step.effect (tabStop o) ParserSt.ground
  else if b < 0x20 then Step.pure ParserSt.ground
  else if b = 0x7f then Step.pure ParserSt.ground
  else if b < 0x80 then Step.effect (putChar o b) ParserSt.ground
  else if 0xc2 ≤ b ∧ b ≤ 0xdf then Step.pure (ParserSt.utf8 (b % 0x20) 1)
  else if 0xe0 ≤ b ∧ b ≤ 0xef then Step.pure (ParserSt.utf8 (b % 0x10) 2)
  else if 0xf0 ≤ b ∧ b ≤ 0xf4 then Step.pure (ParserSt.utf8 (b % 8) 3)
  else Step.pure ParserSt.ground

/-- Modelled from the spec: the one-byte transition of the escape-sequence
state machine, as a step outcome.  Unrecognized or malformed sequences
are discarded and the machine resets to ground — never fatal. -/
def feedByteStep (st : Term) (b : Nat) : Step :=
  match st.parser with
  | ParserSt.ground => groundStep st.obs b
  | ParserSt.esc =>
      if b = 0x5b then Step.pure (ParserSt.csi [] 0)
      else if b = 0x5d then Step.pure (ParserSt.osc [])
      else if b = 0x50 then Step.pure ParserSt.dcs
      else if b = 0x3d then Step.effect (setAppKeypad st.obs true) ParserSt.ground
      else if b = 0x3e then Step.effect (setAppKeypad st.obs false) ParserSt.ground
      else Step.pure ParserSt.ground
  | ParserSt.csi ps cur =>
      if 0x30 ≤ b ∧ b ≤ 0x39 then Step.pure (ParserSt.csi ps (cur * 10 + (b - 0x30)))
      else if b = 0x3b then Step.pure (ParserSt.csi (ps ++ [cur]) 0)
      else if 0x20 ≤ b ∧ b ≤ 0x3f then Step.pure (ParserSt.csi ps cur)
      else if 0x40 ≤ b ∧ b ≤ 0x7e then csiStep st.obs (ps ++ [cur]) b
      else Step.pure ParserSt.ground
  | ParserSt.osc data =>
      if b = 0x1b then Step.pure (ParserSt.oscEsc data)
      else if b = 0x07 then oscStep st.obs data
      else if b < 0x20 then Step.pure ParserSt.ground
      else Step.pure (ParserSt.osc (data ++ [b]))
  | ParserSt.oscEsc data =>
      if b = 0x5c then oscStep st.obs data
      else Step.pure ParserSt.ground
  | ParserSt.dcs =>
      if b = 0x1b then Step.pure ParserSt.dcsEsc
      else if b = 0x18 then Step.pure ParserSt.ground
      else Step.pure ParserSt.dcs
  | ParserSt.dcsEsc =>
      if b = 0x5c then Step.pure ParserSt.ground
      else if b = 0x1b then Step.pure ParserSt.dcsEsc
      else if b = 0x18 then Step.pure ParserSt.ground
      else Step.pure ParserSt.dcs
  | ParserSt.utf8 acc need =>
      if 0x80 ≤ b ∧ b ≤ 0xbf then
        if need ≤ 1 then Step.effect (putChar st.obs (acc * 64 + b % 64)) ParserSt.ground
        else Step.pure (ParserSt.utf8 (acc * 64 + b % 64) (need - 1))
      else Step.pure ParserSt.ground

/-- Modelled from the spec (cotty_terminal_feed_byte, whose implementation
is absent from the tree): consume one byte of child output through the
escape-sequence state machine. -/
def feedByte (st : Term) (b : Nat) : Term :=
  applyStep st (feedByteStep st b)

/-- Modelled from the spec (cotty_terminal_feed): consume a whole chunk of
child output, byte by byte. -/
def feed (st : Term) (bytes : List Nat) : Term :=
  bytes.foldl feedByte st

/-- Modelled from the spec (cotty_terminal_resize, whose implementation is
absent from the tree): non-positive dimensions are rejected without
mutating state; otherwise the grid is truncated/padded to the new
dimensions (truncation policy chosen here; the spec leaves reflow vs
truncate open) and the cursor is clipped into the new bounds. -/
def resizeTerm (st : Term) (rows cols : Int) : Term :=
  if rows ≤ 0 ∨ cols ≤ 0 then st
  else
    let nr := rows.toNat
    let nc := cols.toNat
    let o := st.obs
    let newData := (o.grid.data.take nr
        ++ List.replicate (nr - o.grid.data.length) (blankRow nc)).map
      (fun row => { row with
        cells := row.cells.take nc ++ List.replicate (nc - row.cells.length) blankCell })
    let g : Grid := { nrows := nr, ncols := nc, data := newData }
    let cur : CursorSt := { o.cursor with
      row := min o.cursor.row (nr - 1), col := min o.cursor.col (nc - 1) }
    eff st { o with grid := g, cursor := cur } st.parser

/-- Modelled from the spec (cotty_terminal_set_viewport): reposition the
read window; requests are clamped into [0, scrollback_length] (a negative
request clamps to 0). -/
def setViewportTerm (st : Term) (row : Int) : Term :=
  { st with obs := { st.obs with
      viewport := min row.toNat st.obs.scrollback.rows.length } }

/-- Modelled from the spec (cotty_terminal_check_dirty): atomically
observe and clear the dirty signal — returns the old value and the state
with dirty cleared. -/
def checkDirtyTerm (st : Term) : Bool × Term :=
  (st.dirty, { st with dirty := false })

/-- Decimal digit expansion helper (fuel-driven). -/
def decDigitsAux : Nat → Nat → List Nat
  | 0, _ => []
  | fuel + 1, n => if n = 0 then [] else decDigitsAux fuel (n / 10) ++ [0x30 + n % 10]

/-- ASCII decimal representation of a number, as bytes. -/
def decDigits (n : Nat) : List Nat :=
  if n = 0 then [0x30] else decDigitsAux (n + 1) n

/-- Modelled from the spec: xterm modifier bits added to the button code
(shift 4, meta 8, ctrl 16). -/
def modBits (mods : Nat) : Nat :=
  mods % 2 * 4 + mods / 2 % 2 * 8 + mods / 4 % 2 * 16

/-- Modelled from the spec: SGR mouse report
ESC [ < Cb ; Cx ; Cy M (press) / m (release), 1-based coordinates. -/
def sgrMouse (cb col row : Nat) (pressed : Bool) : List Nat :=
  [0x1b, 0x5b, 0x3c] ++ decDigits cb ++ [0x3b] ++ decDigits (col + 1) ++ [0x3b]
    ++ decDigits (row + 1) ++ [if pressed then 0x4d else 0x6d]

/-- Modelled from the spec: legacy single-byte-offset mouse report, with
coordinates clamped at the protocol's historical limit. -/
def legacyMouse (cb col row : Nat) : List Nat :=
  [0x1b, 0x5b, 0x4d, 32 + cb, 32 + min (col + 1) 223, 32 + min (row + 1) 223]

/-- Modelled from the spec (cotty_terminal_mouse_event, whose
implementation is absent from the tree): encode a pointer event into the
bytes written to the child, as a pure function of the current mouse mode
and format plus the event coordinates. -/
def mouseEventBytes (st : Term) (button col row : Nat) (pressed : Bool)
    (mods : Nat) : List Nat :=
  if st.obs.mode.mouseMode = MouseMode.off then []
  else
    match st.obs.mode.mouseFormat with
    | MouseFormat.sgr => sgrMouse (button + modBits mods) col row pressed
    | MouseFormat.urxvt =>
        [0x1b, 0x5b] ++ decDigits ((if pressed then button else 3) + modBits mods + 32)
          ++ [0x3b] ++ decDigits (col + 1) ++ [0x3b] ++ decDigits (row + 1) ++ [0x4d]
    | _ => legacyMouse ((if pressed then button else 3) + modBits mods) col row

/-- The combined row sequence scrollback ++ active grid that the viewport
reads into. -/
def allRows (o : Obs) : List Row :=
  o.scrollback.rows ++ o.grid.data

/-- Whether combined row i carries the OSC 133 prompt-start tag. -/
def isPromptRow (o : Obs) (i : Nat) : Bool :=
  decide (((allRows o).getD i (blankRow 0)).tag = SemTag.promptStart)

/-- Modelled from the spec (cotty_terminal_jump_next_prompt): scan tagged
rows strictly after the current viewport position, land on the nearest
prompt-start row; if none exists, leave the viewport unchanged and report
no movement. -/
def jumpNextPrompt (st : Term) : Bool × Term :=
  match (List.range (allRows st.obs).length).find?
      (fun i => decide (st.obs.viewport < i) && isPromptRow st.obs i) with
  | some i => (true, { st with obs := { st.obs with viewport := i } })
  | none => (false, st)

/-- Modelled from the spec (cotty_terminal_jump_prev_prompt): scan tagged
rows strictly before the current viewport position, land on the nearest
prompt-start row; if none exists, leave the viewport unchanged and report
no movement. -/
def jumpPrevPrompt (st : Term) : Bool × Term :=
  match (List.range st.obs.viewport).reverse.find?
      (fun i => decide (i < st.obs.viewport) && isPromptRow st.obs i) with
  | some i => (true, { st with obs := { st.obs with viewport := i } })
  | none => (false, st)

/-- Modelled from the spec (cotty_terminal_surface_new): fresh terminal —
blank grid, home cursor, all modes off, empty scrollback of a capacity
fixed at construction, viewport at 0, not dirty, parser in ground. -/
def initTerm (rows cols cap : Nat) : Term :=
  { obs := {
      grid := { nrows := rows, ncols := cols,
                data := List.replicate rows (blankRow cols) },
      cursor := { row := 0, col := 0, visible := true, shape := 0, blink := true },
      mode := { altScreen := false, mouseMode := MouseMode.off,
                mouseFormat := MouseFormat.default, bracketedPaste := false,
                focusEvents := false, kittyKeyboard := false, appKeypad := false,
                reverseVideo := false, bellPending := false },
      pen := defaultPen,
      scrollback := Scrollback.empty cap, viewport := 0, title := [],
      pwd := [], paletteOv := [] },
    dirty := false, parser := ParserSt.ground }

/-- Tag of the raw-buffer color encoding: 0 = none, 1 = palette, 2 = rgb
(cotty.h line 100). -/
def colorType : Color → Int
  | Color.none => 0
  | Color.palette _ => 1
  | Color.rgb _ => 2

/-- Value field of the raw-buffer color encoding. -/
def colorVal : Color → Int
  | Color.none => 0
  | Color.palette n => Int.ofNat n
  | Color.rgb v => Int.ofNat v

/-- Modelled from the header contract (cotty.h lines 98-100): one cell of
the raw buffer behind cotty_terminal_cells_ptr is 8 consecutive i64
fields in the order codepoint, fg_type, fg_val, bg_type, bg_val, flags,
ul_type, ul_val. -/
def cellFields (c : Cell) : List Int :=
  [Int.ofNat c.cp, colorType c.fg, colorVal c.fg, colorType c.bg, colorVal c.bg,
   Int.ofNat c.flags, colorType c.ul, colorVal c.ul]

/-- Modelled from the header contract: the whole raw cell buffer, row-major,
each cell contributing its 8 fields consecutively. -/
def cellsBuffer (g : Grid) : List Int :=
  (g.data.map (fun row => (row.cells.map cellFields).flatten)).flatten

/-- Number of cells stored in the grid. -/
def numCells (g : Grid) : Nat :=
  (g.data.map (fun row => row.cells.length)).sum

/-- Boundary name of feed (cotty.h line 78). -/
def cotty_terminal_feed (st : Term) (bytes : List Nat) : Term :=
  feed st bytes

/-- Boundary name of feed_byte (cotty.h line 79). -/
def cotty_terminal_feed_byte (st : Term) (b : Nat) : Term :=
  feedByte st b

/-- Boundary name of resize (cotty.h line 77). -/
def cotty_terminal_resize (st : Term) (rows cols : Int) : Term :=
  resizeTerm st rows cols

/-- Boundary name of set_viewport (cotty.h line 107). -/
def cotty_terminal_set_viewport (st : Term) (row : Int) : Term :=
  setViewportTerm st row

/-- Boundary name of check_dirty (cotty.h line 66). -/
def cotty_terminal_check_dirty (st : Term) : Bool × Term :=
  checkDirtyTerm st

/-- Boundary name of mouse_event (cotty.h line 123); the result models the
bytes written to the child. -/
def cotty_terminal_mouse_event (st : Term) (button col row : Nat) (pressed : Bool)
    (mods : Nat) : List Nat :=
  mouseEventBytes st button col row pressed mods

/-- Boundary name of jump_next_prompt (cotty.h line 165). -/
def cotty_terminal_jump_next_prompt (st : Term) : Bool × Term :=
  jumpNextPrompt st

/-- Boundary name of jump_prev_prompt (cotty.h line 164). -/
def cotty_terminal_jump_prev_prompt (st : Term) : Bool × Term :=
  jumpPrevPrompt st

/-- Boundary name of scrollback_rows (cotty.h line 105). -/
def cotty_terminal_scrollback_rows (st : Term) : Nat :=
  st.obs.scrollback.rows.length

/-- Boundary name of viewport_row (cotty.h line 106). -/
def cotty_terminal_viewport_row (st : Term) : Nat :=
  st.obs.viewport

/-- Boundary name of pwd (cotty.h line 134); the result models the bytes
of the OSC 7 working-directory string. -/
def cotty_terminal_pwd (st : Term) : List Nat :=
  st.obs.pwd

/-- Boundary name of cursor_row (cotty.h line 90). -/
def cotty_terminal_cursor_row (st : Term) : Nat :=
  st.obs.cursor.row

/-- Boundary name of cursor_col (cotty.h line 91). -/
def cotty_terminal_cursor_col (st : Term) : Nat :=
  st.obs.cursor.col

/-- C1: feeding a byte sequence one byte at a time yields the same final
state (Grid, Mode and Cursor included) as feeding it in one call, and more
generally any chunking of the stream converges to the same state, so
chunk boundaries — including ones splitting a UTF-8 multi-byte sequence or
an escape sequence — do not change the result. -/
theorem feed_chunk_invariance :
    (∀ (st : Term) (bytes : List Nat),
        List.foldl cotty_terminal_feed_byte st bytes = cotty_terminal_feed st bytes) ∧
    (∀ (st : Term) (chunks : List (List Nat)),
        List.foldl cotty_terminal_feed st chunks = cotty_terminal_feed st chunks.flatten) := by
  constructor
  · intro st bytes
    rfl
  · intro st chunks
    induction chunks generalizing st with
    | nil => rfl
    | cons c rest ih =>
      simp only [List.foldl_cons, List.flatten_cons]
      rw [ih]
      simp only [cotty_terminal_feed, feed, List.foldl_append]

/-- C2: the scrollback store is a bounded FIFO ring — its length never
exceeds the capacity fixed at construction; pushing a row while at
capacity evicts exactly the oldest stored row; pushing capacity+1 rows
into an empty scrollback leaves the most recent capacity rows in order. -/
theorem scrollback_bounded_fifo :
    (∀ (sb : Scrollback) (r : Row), (sb.push r).rows.length ≤ sb.capacity) ∧
    (∀ (sb : Scrollback) (r : Row), 0 < sb.capacity → sb.rows.length = sb.capacity →
        (sb.push r).rows = sb.rows.tail ++ [r]) ∧
    (∀ (cap : Nat) (l : List Row), l.length = cap + 1 →
        ((Scrollback.empty cap).pushAll l).rows = l.tail) := by
  refine ⟨Scrollback.push_capacity, Scrollback.push_at_capacity, ?_⟩
  intro cap l hl
  rw [Scrollback.pushAll_rows cap l (Scrollback.empty cap) rfl
    (by simp [Scrollback.empty])]
  have h1 : (Scrollback.empty cap).rows ++ l = l := by
    simp [Scrollback.empty]
  have h2 : (Scrollback.empty cap).rows.length + l.length - cap = 1 := by
    simp [Scrollback.empty]
    omega
  rw [h1, h2, List.drop_one]

/-- Concrete check of C2: capacity 2, three pushes keep the last two rows. -/
theorem scrollback_bounded_fifo_witness :
    ((Scrollback.empty 2).pushAll [blankRow 1, blankRow 2, blankRow 3]).rows
      = [blankRow 2, blankRow 3] := by
  have h := scrollback_bounded_fifo.2.2 2 [blankRow 1, blankRow 2, blankRow 3] rfl
  simpa using h

/-- Every single-byte step is either a pure parser transition or an
effectful step that raises the dirty signal. -/
theorem feedByte_shape (st : Term) (b : Nat) :
    (∃ p, feedByte st b = pure1 st p) ∨ (∃ o p, feedByte st b = eff st o p) := by
  unfold feedByte
  cases feedByteStep st b with
  | pure p => exact Or.inl ⟨p, rfl⟩
  | effect o p => exact Or.inr ⟨o, p, rfl⟩

/-- A single byte either raises dirty or leaves both the observable state
and the dirty signal untouched. -/
theorem feedByte_dirty (st : Term) (b : Nat) :
    (feedByte st b).dirty = true ∨
      ((feedByte st b).obs = st.obs ∧ (feedByte st b).dirty = st.dirty) := by
  rcases feedByte_shape st b with ⟨p, h⟩ | ⟨o, p, h⟩
  · right
    rw [h]
    exact ⟨rfl, rfl⟩
  · left
    rw [h]
    rfl

/-- The dirty signal is never cleared by feeding. -/
theorem feed_dirty_mono (bytes : List Nat) :
    ∀ st : Term, st.dirty = true → (feed st bytes).dirty = true := by
  induction bytes with
  | nil => exact fun st h => h
  | cons b rest ih =>
    intro st h
    have hb : (feedByte st b).dirty = true := by
      rcases feedByte_dirty st b with h1 | ⟨_, h2⟩
      · exact h1
      · rw [h2]
        exact h
    simpa only [feed, List.foldl_cons] using ih (feedByte st b) hb

/-- Any feed that changes the observable state raises the dirty signal. -/
theorem feed_change_dirty (bytes : List Nat) :
    ∀ st : Term, (feed st bytes).obs ≠ st.obs → (feed st bytes).dirty = true := by
  induction bytes with
  | nil => exact fun st h => absurd rfl h
  | cons b rest ih =>
    intro st h
    simp only [feed, List.foldl_cons] at h ⊢
    rcases feedByte_dirty st b with h1 | ⟨h2, _⟩
    · exact feed_dirty_mono rest (feedByte st b) h1
    · exact ih (feedByte st b) (fun hc => h (hc.trans h2))

/-- C3: after any feed call that produced an observable change the dirty
flag is true; check_dirty observes and clears it in one step, so it
returns the pending value without touching the observable state and an
immediately following check_dirty returns false. -/
theorem dirty_check_and_clear :
    (∀ (st : Term) (bytes : List Nat),
        (cotty_terminal_feed st bytes).obs ≠ st.obs →
          (cotty_terminal_feed st bytes).dirty = true) ∧
    (∀ st : Term,
        (cotty_terminal_check_dirty st).1 = st.dirty ∧
        (cotty_terminal_check_dirty st).2.obs = st.obs ∧
        (cotty_terminal_check_dirty (cotty_terminal_check_dirty st).2).1 = false) := by
  constructor
  · exact fun st bytes h => feed_change_dirty bytes st h
  · exact fun st => ⟨rfl, rfl, rfl⟩

/-- Concrete check of C3: printing one character on a fresh 2x2 terminal
is an observable change, so dirty is raised; on the fresh terminal itself
check_dirty reads false. -/
theorem dirty_check_and_clear_witness :
    (cotty_terminal_feed (initTerm 2 2 5) [0x61]).dirty = true ∧
    (cotty_terminal_check_dirty (initTerm 2 2 5)).1 = false :=
  ⟨dirty_check_and_clear.1 (initTerm 2 2 5) [0x61] (by decide),
   (dirty_check_and_clear.2 (initTerm 2 2 5)).1⟩

/-- C4: unrecognized or malformed control sequences are never surfaced to
the caller and never fatal: the parser silently discards them, leaves the
observable state unchanged, and returns the state machine to the ground
state — an unrecognized escape introducer (one that starts none of the
recognized CSI/OSC/DCS/keypad sequences), a control byte inside a CSI
sequence, a CSI final byte outside the recognized families (cursor
movement/placement H f A B C D, erase J K, SGR m, DECSET/RM h l), and
the CAN byte in any parser state all reset to ground with no observable
change; a DCS payload is consumed without observable effect (feed itself
is a total function of the byte stream). -/
theorem malformed_discarded_resets_ground :
    (∀ (st : Term) (b : Nat), st.parser = ParserSt.esc →
        b ∉ [0x5b, 0x5d, 0x50, 0x3d, 0x3e] →
        (feedByte st b).obs = st.obs ∧ (feedByte st b).parser = ParserSt.ground) ∧
    (∀ (st : Term) (ps : List Nat) (cur b : Nat), st.parser = ParserSt.csi ps cur →
        b < 0x20 →
        (feedByte st b).obs = st.obs ∧ (feedByte st b).parser = ParserSt.ground) ∧
    (∀ (st : Term) (ps : List Nat) (cur b : Nat), st.parser = ParserSt.csi ps cur →
        0x40 ≤ b → b ≤ 0x7e →
        b ∉ [0x48, 0x66, 0x41, 0x42, 0x43, 0x44, 0x4a, 0x4b, 0x6d, 0x68, 0x6c] →
        (feedByte st b).obs = st.obs ∧ (feedByte st b).parser = ParserSt.ground) ∧
    (∀ st : Term,
        (feedByte st 0x18).obs = st.obs ∧ (feedByte st 0x18).parser = ParserSt.ground) ∧
    (∀ (st : Term) (b : Nat), st.parser = ParserSt.dcs ∨ st.parser = ParserSt.dcsEsc →
        (feedByte st b).obs = st.obs) := by
  refine ⟨?_, ?_, ?_, ?_, ?_⟩
  · intro st b hp hin
    simp only [List.mem_cons, List.not_mem_nil, or_false, not_or] at hin
    obtain ⟨hcsi, hosc, hdcs, hkon, hkoff⟩ := hin
    simp only [feedByte, feedByteStep, hp]
    rw [if_neg hcsi, if_neg hosc, if_neg hdcs, if_neg hkon, if_neg hkoff]
    exact ⟨rfl, rfl⟩
  · intro st ps cur b hp hb
    have hdig : ¬(0x30 ≤ b ∧ b ≤ 0x39) := by omega
    have hsemi : b ≠ 0x3b := by omega
    have hmid : ¬(0x20 ≤ b ∧ b ≤ 0x3f) := by omega
    have hfin : ¬(0x40 ≤ b ∧ b ≤ 0x7e) := by omega
    simp only [feedByte, feedByteStep, hp]
    rw [if_neg hdig, if_neg hsemi, if_neg hmid, if_neg hfin]
    exact ⟨rfl, rfl⟩
  · intro st ps cur b hp hlo hhi hin
    simp only [List.mem_cons, List.mem_singleton, not_or] at hin
    have hdig : ¬(0x30 ≤ b ∧ b ≤ 0x39) := by omega
    have hsemi : b ≠ 0x3b := by omega
    have hmid : ¬(0x20 ≤ b ∧ b ≤ 0x3f) := by omega
    have hH : ¬(b = 0x48 ∨ b = 0x66) := by omega
    have hA : b ≠ 0x41 := by omega
    have hB : b ≠ 0x42 := by omega
    have hC : b ≠ 0x43 := by omega
    have hD : b ≠ 0x44 := by omega
    have hJ : b ≠ 0x4a := by omega
    have hK : b ≠ 0x4b := by omega
    have hsgr : b ≠ 0x6d := by omega
    have hset : b ≠ 0x68 := by omega
    have hrst : b ≠ 0x6c := by omega
    simp only [feedByte, feedByteStep, hp]
    rw [if_neg hdig, if_neg hsemi, if_neg hmid,
      if_pos (show 0x40 ≤ b ∧ b ≤ 0x7e from ⟨hlo, hhi⟩)]
    simp only [csiStep]
    rw [if_neg hH, if_neg hA, if_neg hB, if_neg hC, if_neg hD, if_neg hJ,
      if_neg hK, if_neg hsgr, if_neg hset, if_neg hrst]
    exact ⟨rfl, rfl⟩
  · intro st
    cases hp : st.parser
    all_goals simp [feedByte, feedByteStep, hp, groundStep, oscStep, applyStep, pure1]
  · intro st b hp
    rcases hp with hp | hp
    all_goals simp only [feedByte, feedByteStep, hp]
    all_goals split_ifs
    all_goals rfl

/-- Concrete check of C4: the byte 0x21 after a lone ESC is discarded and
the parser returns to ground on a fresh 2x2 terminal. -/
theorem malformed_discarded_resets_ground_witness :
    (feedByte { initTerm 2 2 5 with parser := ParserSt.esc } 0x21).obs
        = ({ initTerm 2 2 5 with parser := ParserSt.esc } : Term).obs ∧
    (feedByte { initTerm 2 2 5 with parser := ParserSt.esc } 0x21).parser
        = ParserSt.ground :=
  malformed_discarded_resets_ground.1
    { initTerm 2 2 5 with parser := ParserSt.esc } 0x21 rfl (by decide)

/-- C5: a resize with non-positive rows or non-positive cols is rejected
without mutating any terminal state. -/
theorem resize_invalid_rejected (st : Term) (rows cols : Int)
    (h : rows ≤ 0 ∨ cols ≤ 0) : cotty_terminal_resize st rows cols = st := by
  simp only [cotty_terminal_resize, resizeTerm, if_pos h]

/-- Concrete check of C5: resizing a fresh 24x80 terminal to 0 rows is a
no-op. -/
theorem resize_invalid_rejected_witness :
    cotty_terminal_resize (initTerm 24 80 5) 0 80 = initTerm 24 80 5 :=
  resize_invalid_rejected (initTerm 24 80 5) 0 80 (Or.inl (by decide))

/-- C6: every valid resize clips the cursor into the new grid bounds; in
particular resizing to 10 rows leaves the cursor row at most 9 (the
operation is a total function — it cannot panic). -/
theorem resize_clips_cursor (st : Term) (rows cols : Int)
    (hr : 0 < rows) (hc : 0 < cols) :
    ((cotty_terminal_resize st rows cols).obs.cursor.row < rows.toNat ∧
      (cotty_terminal_resize st rows cols).obs.cursor.col < cols.toNat) ∧
    (cotty_terminal_resize st 10 80).obs.cursor.row ≤ 9 := by
  have hgen : ∀ (r c : Int), 0 < r → 0 < c →
      (cotty_terminal_resize st r c).obs.cursor.row < r.toNat ∧
      (cotty_terminal_resize st r c).obs.cursor.col < c.toNat := by
    intro r c h1 h2
    have hguard : ¬(r ≤ 0 ∨ c ≤ 0) := by omega
    simp only [cotty_terminal_resize, resizeTerm, if_neg hguard, eff]
    have h3 := min_le_right st.obs.cursor.row (r.toNat - 1)
    have h4 := min_le_right st.obs.cursor.col (c.toNat - 1)
    have h5 : 0 < r.toNat := by omega
    have h6 : 0 < c.toNat := by omega
    exact ⟨by omega, by omega⟩
  exact ⟨hgen rows cols hr hc, by
    have h7 := (hgen 10 80 (by decide) (by decide)).1
    omega⟩

/-- Concrete check of C6: resizing a fresh 24x80 terminal to 10x80 leaves
the cursor inside the 10-row grid. -/
theorem resize_clips_cursor_witness :
    (cotty_terminal_resize (initTerm 24 80 5) 10 80).obs.cursor.row < 10 ∧
    (cotty_terminal_resize (initTerm 24 80 5) 10 80).obs.cursor.col < 80 :=
  (resize_clips_cursor (initTerm 24 80 5) 10 80 (by decide) (by decide)).1

/-- C7: set_viewport repositions only the read window — cursor, grid and
scrollback content are unchanged — and the requested row is clamped into
the interval between 0 and the scrollback length instead of erroring. -/
theorem set_viewport_clamps (st : Term) (row : Int) :
    (cotty_terminal_set_viewport st row).obs.cursor = st.obs.cursor ∧
    (cotty_terminal_set_viewport st row).obs.grid = st.obs.grid ∧
    (cotty_terminal_set_viewport st row).obs.scrollback = st.obs.scrollback ∧
    (cotty_terminal_set_viewport st row).obs.viewport
        ≤ cotty_terminal_scrollback_rows st ∧
    (0 ≤ row → row.toNat ≤ cotty_terminal_scrollback_rows st →
      (cotty_terminal_set_viewport st row).obs.viewport = row.toNat) := by
  refine ⟨rfl, rfl, rfl, ?_, ?_⟩
  · exact min_le_right _ _
  · intro _ h2
    simp only [cotty_terminal_set_viewport, setViewportTerm,
      cotty_terminal_scrollback_rows] at h2 ⊢
    omega

/-- Concrete check of C7: requesting viewport row 0 on a fresh terminal
is in range and is honored exactly. -/
theorem set_viewport_clamps_witness :
    (cotty_terminal_set_viewport (initTerm 2 2 5) 0).obs.viewport = 0 :=
  (set_viewport_clamps (initTerm 2 2 5) 0).2.2.2.2 (by decide) (by decide)

/-- C8: under the SGR mouse format, mouse_event(button=0, col=5, row=3,
pressed) encodes coordinates 1-based and produces exactly the bytes
ESC [ < 0 ; 6 ; 4 M for the press and the same sequence terminated with
m for the release. -/
theorem mouse_event_sgr_encoding (st : Term)
    (hmode : st.obs.mode.mouseMode ≠ MouseMode.off)
    (hfmt : st.obs.mode.mouseFormat = MouseFormat.sgr) :
    cotty_terminal_mouse_event st 0 5 3 true 0 =
      [0x1b, 0x5b, 0x3c, 0x30, 0x3b, 0x36, 0x3b, 0x34, 0x4d] ∧
    cotty_terminal_mouse_event st 0 5 3 false 0 =
      [0x1b, 0x5b, 0x3c, 0x30, 0x3b, 0x36, 0x3b, 0x34, 0x6d] := by
  constructor <;>
    · simp only [cotty_terminal_mouse_event, mouseEventBytes, if_neg hmode, hfmt]
      rfl

/-- Terminal used to check C8 concretely: fresh terminal with normal
mouse tracking in SGR format. -/
def sgrTestTerm : Term :=
  let base := initTerm 2 2 5
  let m := { base.obs.mode with mouseMode := MouseMode.normal, mouseFormat := MouseFormat.sgr }
  { base with obs := { base.obs with mode := m } }

/-- Concrete check of C8 on sgrTestTerm. -/
theorem mouse_event_sgr_encoding_witness :
    cotty_terminal_mouse_event sgrTestTerm 0 5 3 true 0 =
      [0x1b, 0x5b, 0x3c, 0x30, 0x3b, 0x36, 0x3b, 0x34, 0x4d] :=
  (mouse_event_sgr_encoding sgrTestTerm (by decide) (by decide)).1

/-- Rows used by the C9 scenario. -/
def promptTaggedRow : Row :=
  { cells := [], wrapped := false, tag := SemTag.promptStart }

/-- Untagged row used by the C9 scenario. -/
def plainTestRow : Row :=
  { cells := [], wrapped := false, tag := SemTag.untagged }

/-- Scenario terminal for C9: prompt-start tags on combined rows 5 and 12
(both inside the scrollback), viewport at row 0. -/
def promptScenario : Term :=
  let base := initTerm 3 4 100
  let rs := List.replicate 5 plainTestRow ++ [promptTaggedRow]
    ++ List.replicate 6 plainTestRow ++ [promptTaggedRow]
    ++ List.replicate 2 plainTestRow
  let sb : Scrollback := { capacity := 100, rows := rs }
  { base with obs := { base.obs with scrollback := sb } }

/-- C9: jump_next_prompt / jump_prev_prompt scan prompt-tagged rows from
the current viewport position, skipping untagged rows, and move the
viewport monotonically in the requested direction with no wraparound;
with no further tagged row the viewport is unchanged and the call reports
no movement.  With prompt-start tags on rows 5 and 12, successive
jump-next calls from row 0 land on 5, then 12, and a third call makes no
move. -/
theorem jump_prompt_navigation :
    (∀ st : Term,
        ((cotty_terminal_jump_next_prompt st).1 = false →
          (cotty_terminal_jump_next_prompt st).2 = st) ∧
        ((cotty_terminal_jump_next_prompt st).1 = true →
          st.obs.viewport < (cotty_terminal_jump_next_prompt st).2.obs.viewport ∧
          isPromptRow st.obs (cotty_terminal_jump_next_prompt st).2.obs.viewport = true)) ∧
    (∀ st : Term,
        ((cotty_terminal_jump_prev_prompt st).1 = false →
          (cotty_terminal_jump_prev_prompt st).2 = st) ∧
        ((cotty_terminal_jump_prev_prompt st).1 = true →
          (cotty_terminal_jump_prev_prompt st).2.obs.viewport < st.obs.viewport ∧
          isPromptRow st.obs (cotty_terminal_jump_prev_prompt st).2.obs.viewport = true)) ∧
    ((cotty_terminal_jump_next_prompt promptScenario).1 = true ∧
      (cotty_terminal_jump_next_prompt promptScenario).2.obs.viewport = 5 ∧
      (cotty_terminal_jump_next_prompt
        (cotty_terminal_jump_next_prompt promptScenario).2).1 = true ∧
      (cotty_terminal_jump_next_prompt
        (cotty_terminal_jump_next_prompt promptScenario).2).2.obs.viewport = 12 ∧
      cotty_terminal_jump_next_prompt
        (cotty_terminal_jump_next_prompt
          (cotty_terminal_jump_next_prompt promptScenario).2).2 =
        (false, (cotty_terminal_jump_next_prompt
          (cotty_terminal_jump_next_prompt promptScenario).2).2)) := by
  refine ⟨?_, ?_, by decide, by decide, by decide, by decide, by decide⟩
  · intro st
    simp only [cotty_terminal_jump_next_prompt, jumpNextPrompt]
    cases hfind : (List.range (allRows st.obs).length).find?
        (fun i => decide (st.obs.viewport < i) && isPromptRow st.obs i) with
    | none => exact ⟨fun _ => rfl, fun h => absurd h (by simp)⟩
    | some i =>
      have hp := List.find?_some hfind
      simp only [Bool.and_eq_true, decide_eq_true_eq] at hp
      exact ⟨fun h => absurd h (by simp), fun _ => ⟨hp.1, hp.2⟩⟩
  · intro st
    simp only [cotty_terminal_jump_prev_prompt, jumpPrevPrompt]
    cases hfind : (List.range st.obs.viewport).reverse.find?
        (fun i => decide (i < st.obs.viewport) && isPromptRow st.obs i) with
    | none => exact ⟨fun _ => rfl, fun h => absurd h (by simp)⟩
    | some i =>
      have hp := List.find?_some hfind
      simp only [Bool.and_eq_true, decide_eq_true_eq] at hp
      exact ⟨fun h => absurd h (by simp), fun _ => ⟨hp.1, hp.2⟩⟩

/-- Concrete check of C9: after the two successful jumps in the scenario,
a further jump-next reports no movement and leaves the state unchanged. -/
theorem jump_prompt_navigation_witness :
    (cotty_terminal_jump_next_prompt
      (cotty_terminal_jump_next_prompt
        (cotty_terminal_jump_next_prompt promptScenario).2).2).2 =
    (cotty_terminal_jump_next_prompt
      (cotty_terminal_jump_next_prompt promptScenario).2).2 :=
  (jump_prompt_navigation.1
      (cotty_terminal_jump_next_prompt
        (cotty_terminal_jump_next_prompt promptScenario).2).2).1 (by decide)

/-- Each encoded cell contributes exactly 8 fields. -/
theorem cellFields_length (c : Cell) : (cellFields c).length = 8 := rfl

/-- Row encoding length: 8 fields per cell. -/
theorem row_fields_length (cells : List Cell) :
    ((cells.map cellFields).flatten).length = 8 * cells.length := by
  induction cells with
  | nil => rfl
  | cons c rest ih =>
    simp only [List.map_cons, List.flatten_cons, List.length_append, ih,
      cellFields_length, List.length_cons]
    omega

/-- C10: every cell of the raw buffer occupies 8 consecutive i64 fields
(stride 8 x 8 = 64 bytes) in the order codepoint, fg_type, fg_val,
bg_type, bg_val, flags, ul_type, ul_val; every one of the fg/bg/ul type
fields is always 0 (none), 1 (palette) or 2 (RGB), whatever the cell
holds after any sequence of operations; and the whole buffer is exactly
8 fields per stored cell. -/
theorem cells_buffer_layout :
    (∀ c : Cell, cellFields c =
        [Int.ofNat c.cp, colorType c.fg, colorVal c.fg, colorType c.bg, colorVal c.bg,
         Int.ofNat c.flags, colorType c.ul, colorVal c.ul] ∧
      (cellFields c).length = 8) ∧
    (∀ col : Color, colorType col = 0 ∨ colorType col = 1 ∨ colorType col = 2) ∧
    (∀ g : Grid, (cellsBuffer g).length = 8 * numCells g) := by
  refine ⟨fun c => ⟨rfl, rfl⟩, ?_, ?_⟩
  · intro col
    cases col with
    | none => exact Or.inl rfl
    | palette n => exact Or.inr (Or.inl rfl)
    | rgb v => exact Or.inr (Or.inr rfl)
  · intro g
    obtain ⟨nr, nc, data⟩ := g
    simp only [cellsBuffer, numCells]
    induction data with
    | nil => rfl
    | cons row rest ih =>
      simp only [List.map_cons, List.flatten_cons, List.length_append,
        List.sum_cons, row_fields_length, ih]
      omega

end Cotty
